import Mathlib

/-!
Verification of the CLOUDSC Fortran-driver benchmark harness
(`src/cloudsc_gt4py/drivers/run_fortran.py`) and of the `f_fokoop`
stencil function (`src/cloudsc_gt4py/src/cloudsc4py/physics/_stencils/fccld.py`).

The driver's `core` function is embedded shallowly: subprocess execution is an
oracle `Nat → ProcOutput` giving the captured output of the i-th invocation,
`os.path.exists` is a boolean oracle on paths, and the effects of `core`
(subprocess invocations issued, CSV rows written) are collected explicitly in
the returned `CoreOutcome`.  Numeric values parsed from the captured text are
modelled as rationals.
-/

/-- Split a character list at every occurrence of `sep`, keeping empty fields.
Models Python `str.split(sep)` for a one-character separator (both separators
used by the driver, `"\n"` and `" "`, are one character). -/
def splitOnChar (sep : Char) : List Char → List (List Char)
  | [] => [[]]
  | c :: rest =>
    let r := splitOnChar sep rest
    if c = sep then [] :: r
    else
      match r with
      | [] => [[c]]
      | h :: t => (c :: h) :: t

/-- Python `s.split(sep)` for a one-character separator, on strings. -/
def pySplit (s : String) (sep : Char) : List String :=
  (splitOnChar sep s.toList).map String.mk

/-- Python negative indexing `l[-k]` (for `k ≥ 1`): the k-th element counted
from the end, `none` when the list is too short (Python raises `IndexError`). -/
def pyNegGet {α : Type} (l : List α) (k : Nat) : Option α :=
  if k ≤ l.length then l.get? (l.length - k) else none

/-- Value of a (non-empty) list of decimal digit characters. -/
def digitsVal (ds : List Char) : Nat :=
  ds.foldl (fun a c => a * 10 + (c.toNat - 48)) 0

/-- Mantissa of a Python float literal: `digits`, `digits.digits`, `.digits`
or `digits.`; returns its value as a numerator/denominator pair (the
denominator a power of ten) together with the unconsumed tail. -/
def parseMantissa (cs : List Char) : Option ((Int × Nat) × List Char) :=
  let ip := cs.takeWhile Char.isDigit
  let rest := cs.dropWhile Char.isDigit
  match rest with
  | '.' :: rest2 =>
    let fp := rest2.takeWhile Char.isDigit
    let rest3 := rest2.dropWhile Char.isDigit
    if ip = [] ∧ fp = [] then none
    else some (((digitsVal ip * 10 ^ fp.length + digitsVal fp : Int), 10 ^ fp.length), rest3)
  | _ => if ip = [] then none else some (((digitsVal ip : Int), 1), rest)

/-- Exponent part of a float literal (the characters after `e`/`E`). -/
def parseExponent (cs : List Char) : Option Int :=
  match cs with
  | '+' :: ds => if ds ≠ [] ∧ ds.all Char.isDigit then some (digitsVal ds : Int) else none
  | '-' :: ds => if ds ≠ [] ∧ ds.all Char.isDigit then some (-(digitsVal ds : Int)) else none
  | ds => if ds ≠ [] ∧ ds.all Char.isDigit then some (digitsVal ds : Int) else none

/-- Scale a numerator/denominator pair by `10 ^ k`. -/
def applyExp (m : Int × Nat) (k : Int) : Int × Nat :=
  if 0 ≤ k then (m.1 * 10 ^ k.toNat, m.2) else (m.1, m.2 * 10 ^ (-k).toNat)

/-- Unsigned float literal: mantissa with an optional `e`/`E` exponent. -/
def parseUnsigned (cs : List Char) : Option ℚ := do
  let (m, rest) ← parseMantissa cs
  match rest with
  | [] => pure (mkRat m.1 m.2)
  | 'e' :: es => do
    let k ← parseExponent es
    let m2 := applyExp m k
    pure (mkRat m2.1 m2.2)
  | 'E' :: es => do
    let k ← parseExponent es
    let m2 := applyExp m k
    pure (mkRat m2.1 m2.2)
  | _ => none

/-- Python `float(s)` on the decimal-literal fragment the driver relies on:
optional sign, digits with optional fraction and exponent, value as a
rational.  (The model omits `inf`/`nan` and surrounding whitespace, which the
benchmark banners never place in the numeric fields.)  `none` models the
`ValueError` Python raises on a non-numeric token. -/
def parseFloat (s : String) : Option ℚ :=
  match s.toList with
  | '-' :: cs => (parseUnsigned cs).map (fun q => -q)
  | '+' :: cs => parseUnsigned cs
  | cs => parseUnsigned cs

example : parseFloat "5.0" = some 5 := by decide
example : parseFloat "100.0" = some 100 := by decide
example : parseFloat "y" = none := by decide
example : pySplit "\n\n x 5.0 100.0 y z\n" '\n' = ["", "", " x 5.0 100.0 y z", ""] := by decide

/-- Decidable equality on `Except`, so that concrete parser outcomes can be
checked by evaluation. -/
instance {ε α : Type} [DecidableEq ε] [DecidableEq α] : DecidableEq (Except ε α)
  | .ok x, .ok y =>
    if h : x = y then isTrue (by rw [h]) else isFalse (fun hc => h (Except.ok.inj hc))
  | .error e, .error f =>
    if h : e = f then isTrue (by rw [h]) else isFalse (fun hc => h (Except.error.inj hc))
  | .ok _, .error _ => isFalse (fun hc => Except.noConfusion hc)
  | .error _, .ok _ => isFalse (fun hc => Except.noConfusion hc)

/-- The ways the per-run parsing block of `core` can fail, mirroring the
exceptions Python raises there: an `IndexError` selecting the line, an
`IndexError` selecting a token, or a `ValueError` from `float`. -/
inductive ParseFailure : Type
  | missingLine : ParseFailure
  | missingToken : ParseFailure
  | nonNumericToken : ParseFailure
deriving DecidableEq

/-- The cuda family tuple of `run_fortran.py` line 64. -/
def cudaVariants : List String := ["cuda", "cuda-hoist", "cuda-k-caching"]

/-- The scc family tuple of `run_fortran.py` lines 70-79. -/
def sccVariants : List String :=
  ["gpu-omp-scc-hoist", "gpu-scc", "gpu-scc-cuf", "gpu-scc-cuf-k-caching",
   "gpu-scc-hoist", "gpu-scc-k-caching", "loki-scc-cuf-hoist", "loki-scc-hoist"]

/-- Python `[c for c in x.split(" ") if c != ""]`: split a line on single
spaces and drop the empty tokens. -/
def tokensOf (x : String) : List String :=
  (pySplit x ' ').filter (fun c => c ≠ "")

/-- Translation of the per-run parsing block of `core`
(`run_fortran.py` lines 64-90).  Given the variant name and the decoded
stdout/stderr of one run, it extracts the `(runtime, mflops)` sample:
cuda family - stdout line 2, tokens `z[-4]`/`z[-3]`; scc family - stderr
line 3, tokens `z[-5]`/`z[-4]`; otherwise - stderr line `[-2]`, tokens
`z[-5]`/`z[-4]`.  Failures are the exceptions Python would raise. -/
def variantParse (variant so se : String) : Except ParseFailure (ℚ × ℚ) :=
  if variant ∈ cudaVariants then
    match (pySplit so '\n').get? 2 with
    | none => .error .missingLine
    | some x =>
      let z := tokensOf x
      match pyNegGet z 4 with
      | none => .error .missingToken
      | some a =>
        match parseFloat a with
        | none => .error .nonNumericToken
        | some rt =>
          match pyNegGet z 3 with
          | none => .error .missingToken
          | some b =>
            match parseFloat b with
            | none => .error .nonNumericToken
            | some mf => .ok (rt, mf)
  else if variant ∈ sccVariants then
    match (pySplit se '\n').get? 3 with
    | none => .error .missingLine
    | some x =>
      let z := tokensOf x
      match pyNegGet z 5 with
      | none => .error .missingToken
      | some a =>
        match parseFloat a with
        | none => .error .nonNumericToken
        | some rt =>
          match pyNegGet z 4 with
          | none => .error .missingToken
          | some b =>
            match parseFloat b with
            | none => .error .nonNumericToken
            | some mf => .ok (rt, mf)
  else
    match pyNegGet (pySplit se '\n') 2 with
    | none => .error .missingLine
    | some x =>
      let z := tokensOf x
      match pyNegGet z 5 with
      | none => .error .missingToken
      | some a =>
        match parseFloat a with
        | none => .error .nonNumericToken
        | some rt =>
          match pyNegGet z 4 with
          | none => .error .missingToken
          | some b =>
            match parseFloat b with
            | none => .error .nonNumericToken
            | some mf => .ok (rt, mf)

/-- Which captured stream a variant family's banner is read from. -/
inductive OutStream : Type
  | stdoutStream : OutStream
  | stderrStream : OutStream
deriving DecidableEq

/-- Modelled from the spec: the `VariantOutputLayout` descriptor - which
stream to parse, which line (possibly counted from the end), and which
token offsets from the end of the whitespace-split line hold runtime and
throughput. -/
structure LayoutRule : Type where
  stream : OutStream
  lineFromEnd : Bool
  lineIdx : Nat
  runtimeOff : Nat
  mflopsOff : Nat
deriving DecidableEq

/-- Modelled from the spec: cuda-family rule - stdout, line index 2,
4th/3rd-from-last tokens. -/
def cudaFamilyRule : LayoutRule :=
  { stream := .stdoutStream, lineFromEnd := false, lineIdx := 2, runtimeOff := 4, mflopsOff := 3 }

/-- Modelled from the spec: scc-family rule - stderr, line index 3,
5th/4th-from-last tokens. -/
def sccFamilyRule : LayoutRule :=
  { stream := .stderrStream, lineFromEnd := false, lineIdx := 3, runtimeOff := 5, mflopsOff := 4 }

/-- Modelled from the spec: default rule - stderr, second-to-last line,
5th/4th-from-last tokens. -/
def defaultRule : LayoutRule :=
  { stream := .stderrStream, lineFromEnd := true, lineIdx := 2, runtimeOff := 5, mflopsOff := 4 }

/-- Modelled from the spec: the static mapping from variant identifier to
its layout rule. -/
def layoutFor (variant : String) : LayoutRule :=
  if variant ∈ cudaVariants then cudaFamilyRule
  else if variant ∈ sccVariants then sccFamilyRule
  else defaultRule

/-- Select the banner line a layout rule designates from the captured
stdout/stderr. -/
def selectLine (r : LayoutRule) (so se : String) : Option String :=
  let s := match r.stream with
    | .stdoutStream => so
    | .stderrStream => se
  let lines := pySplit s '\n'
  if r.lineFromEnd then pyNegGet lines r.lineIdx else lines.get? r.lineIdx

/-- Modelled from the spec: apply a layout rule to one run's captured
output, extracting `(runtime, throughput)` or failing on a shape
mismatch. -/
def applyRule (r : LayoutRule) (so se : String) : Except ParseFailure (ℚ × ℚ) :=
  match selectLine r so se with
  | none => .error .missingLine
  | some x =>
    let z := tokensOf x
    match pyNegGet z r.runtimeOff with
    | none => .error .missingToken
    | some a =>
      match parseFloat a with
      | none => .error .nonNumericToken
      | some rt =>
        match pyNegGet z r.mflopsOff with
        | none => .error .missingToken
        | some b =>
          match parseFloat b with
          | none => .error .nonNumericToken
          | some mf => .ok (rt, mf)

example : variantParse "cuda" "\n\n x 5.0 100.0 y z\n" "" = .ok (5, 100) := by decide
example : variantParse "fortran" "" "a 1.0 2.0 3.0 4.0 5.0\nend" = .ok (1, 2) := by decide
example : variantParse "gpu-scc" "" "a\nb\nc\nq 1.5 2.5 3.5 4.5 5.5\n" = .ok (mkRat 3 2, mkRat 5 2) := by decide

/-- The captured outcome of one subprocess invocation: exit code and the
two decoded output streams (`subprocess.run(..., capture_output=True)`). -/
structure ProcOutput : Type where
  returncode : Int
  stdout : String
  stderr : String
deriving DecidableEq

/-- The fields of `FortranConfig` that `core` and `_main` consume
(`ifs_physics_common.framework.config.FortranConfig`). -/
structure FortranConfig : Type where
  build_dir : String
  precision : String
  variant : String
  nproma : Int
  num_cols : Int
  num_runs : Int
  num_threads : Int
deriving DecidableEq

/-- The fields of `IOConfig` that `core` consumes. -/
structure IOConfig : Type where
  output_csv_file : Option String
  host_name : Option String
deriving DecidableEq

/-- The arguments `core` passes to `to_csv` for the persisted row, in
order (`run_fortran.py` lines 97-110), after the destination path and
before the four statistics. -/
structure CsvRecord : Type where
  host_name : Option String
  precision : String
  variant : String
  num_cols : Int
  num_threads : Int
  nproma : Int
  num_runs : Int
  runtime_mean : ℚ
  runtime_stddev : ℚ
  mflops_mean : ℚ
  mflops_stddev : ℚ
deriving DecidableEq

/-- The failure taxonomy of `core`, one constructor per raise site:
`configurationError` is the `RuntimeError` of the executable-existence
check, `executionError` the `RuntimeError` raised on a non-zero warm-up
exit code (carrying the decoded stderr verbatim), `parseError` the
`IndexError`/`ValueError` escaping the per-run parsing block. -/
inductive CoreError : Type
  | configurationError : String → CoreError
  | executionError : String → CoreError
  | parseError : ParseFailure → CoreError
deriving DecidableEq

/-- The data a successful `core` invocation produces: the ordered samples,
the four statistics obtained from `print_performance`, and the CSV rows
written (empty when persistence is skipped). -/
structure CoreStats : Type where
  samples : List (ℚ × ℚ)
  stats : ℚ × ℚ × ℚ × ℚ
  csvWrites : List (String × CsvRecord)
deriving DecidableEq

/-- Everything observable about one `core` invocation: the argument
vectors of the subprocess invocations issued, in order, and the final
result or error. -/
structure CoreOutcome : Type where
  trace : List (List String)
  result : Except CoreError CoreStats
deriving DecidableEq

/-- The environment `core` runs against: the directory of the driver
script (`os.path.dirname(__file__)`), the `os.path.exists` oracle, the
subprocess oracle giving the captured output of the i-th invocation
(0 is the warm-up, i+1 the i-th measured run), and `print_performance`.
`printPerformance` is modelled from the spec: the aggregator is an
external collaborator (`ifs_physics_common.utils.output`, not part of
this repository's sources) that maps the problem size and the runtime
and throughput sample lists to the four summary statistics. -/
structure CoreEnv : Type where
  scriptDir : String
  pathExists : String → Bool
  exec : Nat → ProcOutput
  printPerformance : Int → List ℚ → List ℚ → ℚ × ℚ × ℚ × ℚ

/-- `s` starts with `p`, computed structurally on the character lists. -/
def pyStartsWith (s p : String) : Bool :=
  p.toList.isPrefixOf s.toList

/-- `s` ends with `p`, computed structurally on the character lists. -/
def pyEndsWith (s p : String) : Bool :=
  p.toList.isSuffixOf s.toList

/-- Python `os.path.join` for two components (posix flavour): an absolute
second component replaces the first. -/
def pyPathJoin (a b : String) : String :=
  if pyStartsWith b "/" then b
  else if a = "" ∨ pyEndsWith a "/" then a ++ b
  else a ++ "/" ++ b

/-- The executable path `core` resolves
(`os.path.join(os.path.dirname(__file__), config.build_dir,
f"bin/dwarf-cloudsc-{config.variant}")`). -/
def resolvedExecutable (scriptDir : String) (config : FortranConfig) : String :=
  pyPathJoin (pyPathJoin scriptDir config.build_dir) ("bin/dwarf-cloudsc-" ++ config.variant)

/-- The argument vector of every subprocess invocation `core` issues:
the executable followed by the three positional arguments
`str(num_threads)`, `str(num_cols)`, `str(min(num_cols, nproma))`. -/
def invocationArgs (executable : String) (config : FortranConfig) : List String :=
  [executable, toString config.num_threads, toString config.num_cols,
   toString (min config.num_cols config.nproma)]

/-- The measured-run loop of `core` (`run_fortran.py` lines 52-90): run
`n` measured invocations (invocation indices 1..n), parse each one's
captured output, and collect the samples in order.  Returns the number of
invocations actually issued together with the samples or the first parse
failure.  As in the source, the exit codes of measured runs are never
inspected. -/
def runMeasured (exec : Nat → ProcOutput) (variant : String) : Nat → Nat × Except ParseFailure (List (ℚ × ℚ))
  | 0 => (0, .ok [])
  | n + 1 =>
    match runMeasured exec variant n with
    | (c, .error e) => (c, .error e)
    | (c, .ok prev) =>
      let out := exec (n + 1)
      match variantParse variant out.stdout out.stderr with
      | .error e => (c + 1, .error e)
      | .ok s => (c + 1, .ok (prev ++ [s]))

/-- The persistence step of `core` (`run_fortran.py` lines 95-110): when
`io_config.output_csv_file` is set, one row is appended via `to_csv` with
the configured (unclamped) `nproma`; otherwise nothing is written. -/
def csvRow (config : FortranConfig) (io_config : IOConfig) (st : ℚ × ℚ × ℚ × ℚ) :
    List (String × CsvRecord) :=
  match io_config.output_csv_file with
  | none => []
  | some path =>
    [(path,
      { host_name := io_config.host_name
        precision := config.precision
        variant := config.variant
        num_cols := config.num_cols
        num_threads := config.num_threads
        nproma := config.nproma
        num_runs := config.num_runs
        runtime_mean := st.1
        runtime_stddev := st.2.1
        mflops_mean := st.2.2.1
        mflops_stddev := st.2.2.2 })]

/-- Translation of `core` (`run_fortran.py` lines 29-110).  Resolve the
executable and fail if it does not exist; issue the warm-up invocation and
fail with its stderr if its exit code is non-zero; issue `num_runs`
measured invocations, parsing each; aggregate through `print_performance`;
persist one CSV row when `output_csv_file` is set.  The returned outcome
records the argument vectors of all invocations issued (every one uses
the same vector `invocationArgs`). -/
def core (env : CoreEnv) (config : FortranConfig) (io_config : IOConfig) : CoreOutcome :=
  let executable := resolvedExecutable env.scriptDir config
  if env.pathExists executable then
    let args := invocationArgs executable config
    let warm := env.exec 0
    if warm.returncode ≠ 0 then
      { trace := [args], result := .error (.executionError warm.stderr) }
    else
      match runMeasured env.exec config.variant config.num_runs.toNat with
      | (c, .error e) =>
        { trace := List.replicate (1 + c) args, result := .error (.parseError e) }
      | (c, .ok samples) =>
        let st := env.printPerformance config.num_cols (samples.map Prod.fst) (samples.map Prod.snd)
        { trace := List.replicate (1 + c) args,
          result := .ok { samples := samples, stats := st, csvWrites := csvRow config io_config st } }
  else
    { trace := [],
      result := .error (.configurationError
        ("The executable `" ++ executable ++ "` does not exist.")) }

/-- Modelled from the spec: the builder transform `with_build_dir` of the
configuration objects (the `config` module and
`ifs_physics_common.framework.config` are external collaborators, not in
this repository's sources); each `with` transform returns a new value with
the one field replaced. -/
def with_build_dir (c : FortranConfig) (v : String) : FortranConfig :=
  { c with build_dir := v }

/-- Modelled from the spec: the builder transform `with_precision`. -/
def with_precision (c : FortranConfig) (v : String) : FortranConfig :=
  { c with precision := v }

/-- Modelled from the spec: the builder transform `with_variant`. -/
def with_variant (c : FortranConfig) (v : String) : FortranConfig :=
  { c with variant := v }

/-- Modelled from the spec: the builder transform `with_nproma`. -/
def with_nproma (c : FortranConfig) (v : Int) : FortranConfig :=
  { c with nproma := v }

/-- Modelled from the spec: the builder transform `with_num_cols`. -/
def with_num_cols (c : FortranConfig) (v : Int) : FortranConfig :=
  { c with num_cols := v }

/-- Modelled from the spec: the builder transform `with_num_runs`. -/
def with_num_runs (c : FortranConfig) (v : Int) : FortranConfig :=
  { c with num_runs := v }

/-- Modelled from the spec: the builder transform `with_num_threads`. -/
def with_num_threads (c : FortranConfig) (v : Int) : FortranConfig :=
  { c with num_threads := v }

/-- One step of a builder chain: which `with` transform is applied with
which value. -/
inductive ConfigTransform : Type
  | setBuildDir : String → ConfigTransform
  | setPrecision : String → ConfigTransform
  | setVariant : String → ConfigTransform
  | setNproma : Int → ConfigTransform
  | setNumCols : Int → ConfigTransform
  | setNumRuns : Int → ConfigTransform
  | setNumThreads : Int → ConfigTransform

/-- Apply one builder transform. -/
def applyTransform (c : FortranConfig) : ConfigTransform → FortranConfig
  | .setBuildDir v => with_build_dir c v
  | .setPrecision v => with_precision c v
  | .setVariant v => with_variant c v
  | .setNproma v => with_nproma c v
  | .setNumCols v => with_num_cols c v
  | .setNumRuns v => with_num_runs c v
  | .setNumThreads v => with_num_threads c v

/-- Apply a whole builder chain, left to right, as `_main` does. -/
def applyChain (c : FortranConfig) (l : List ConfigTransform) : FortranConfig :=
  l.foldl applyTransform c

/-- Translation of `f_fokoop`
(`cloudsc4py/physics/_stencils/fccld.py` lines 12-15): the saturation
ratio `min(RKOOP1 - RKOOP2 * t, f_foeeliq(t) / f_foeeice(t))`.  The
externals `RKOOP1`/`RKOOP2` and the imported functions
`f_foeeliq`/`f_foeeice` (from `fcttre.py`, not in this repository's
sources) are parameters; field values are modelled as rationals. -/
def f_fokoop (RKOOP1 RKOOP2 : ℚ) (f_foeeliq f_foeeice : ℚ → ℚ) (t : ℚ) : ℚ :=
  min (RKOOP1 - RKOOP2 * t) (f_foeeliq t / f_foeeice t)

/-- The source's scattered per-variant conditionals compute exactly the
spec's data-driven layout dispatch: `variantParse` agrees with applying
`layoutFor`'s rule on every variant and every captured output. -/
theorem variantParse_eq_applyRule (v so se : String) :
    variantParse v so se = applyRule (layoutFor v) so se := by
  by_cases h1 : v ∈ cudaVariants
  · simp [variantParse, layoutFor, applyRule, selectLine, cudaFamilyRule, h1]
  · by_cases h2 : v ∈ sccVariants
    · simp [variantParse, layoutFor, applyRule, selectLine, sccFamilyRule, h1, h2]
    · simp [variantParse, layoutFor, applyRule, selectLine, defaultRule, h1, h2]

/-- A successful measured-run loop issued exactly `n` invocations and
collected exactly `n` samples, the k-th being the parsed output of
invocation `k+1`. -/
theorem runMeasured_ok_spec (exec : Nat → ProcOutput) (v : String) :
    ∀ n c l, runMeasured exec v n = (c, .ok l) →
      c = n ∧ l.length = n ∧
      ∀ k, k < n → ∃ s, l.get? k = some s ∧
        variantParse v (exec (k + 1)).stdout (exec (k + 1)).stderr = .ok s := by
  intro n
  induction n with
  | zero =>
    intro c l h
    simp only [runMeasured] at h
    simp only [Prod.mk.injEq, Except.ok.injEq] at h
    obtain ⟨hc, hl⟩ := h
    refine ⟨hc.symm, ?_, ?_⟩
    · rw [← hl]; rfl
    · intro k hk; omega
  | succ n ih =>
    intro c l h
    simp only [runMeasured] at h
    rcases hrec : runMeasured exec v n with ⟨c0, r0⟩
    rw [hrec] at h
    cases r0 with
    | error e => simp at h
    | ok prev =>
      rcases hp : variantParse v (exec (n + 1)).stdout (exec (n + 1)).stderr with e | s
      · rw [hp] at h; simp at h
      · rw [hp] at h
        simp only [Prod.mk.injEq, Except.ok.injEq] at h
        obtain ⟨hc, hl⟩ := h
        obtain ⟨hc0, hlen, hget⟩ := ih c0 prev hrec
        refine ⟨by omega, ?_, ?_⟩
        · rw [← hl]; simp [hlen]
        · intro k hk
          rw [← hl]
          by_cases hkn : k < n
          · obtain ⟨s0, hs0, hps0⟩ := hget k hkn
            refine ⟨s0, ?_, hps0⟩
            rw [List.get?_append (by omega)]
            exact hs0
          · have hkeq : k = n := by omega
            subst hkeq
            refine ⟨s, ?_, hp⟩
            have : prev.length = k := hlen
            rw [← this, List.get?_concat_length]

/-- The measured-run loop only looks at the stdout and stderr of
invocations 1 and above: it is invariant under any change to the warm-up
output or to any invocation's exit code. -/
theorem runMeasured_congr (exec1 exec2 : Nat → ProcOutput) (v : String)
    (h : ∀ i, 1 ≤ i → (exec1 i).stdout = (exec2 i).stdout ∧ (exec1 i).stderr = (exec2 i).stderr) :
    ∀ n, runMeasured exec1 v n = runMeasured exec2 v n := by
  intro n
  induction n with
  | zero => rfl
  | succ n ih =>
    simp only [runMeasured, ih]
    obtain ⟨h1, h2⟩ := h (n + 1) (by omega)
    rw [h1, h2]

/-- Exhaustive case analysis of `core`: exactly one of the four branches
of the strictly linear sequence occurs - missing executable, failed
warm-up, parse failure in a measured run, or full success - and each
branch determines the whole outcome. -/
theorem core_cases (env : CoreEnv) (config : FortranConfig) (io_config : IOConfig) :
    (env.pathExists (resolvedExecutable env.scriptDir config) = false ∧
      core env config io_config =
        { trace := [],
          result := .error (.configurationError
            ("The executable `" ++ resolvedExecutable env.scriptDir config ++
              "` does not exist.")) }) ∨
    (env.pathExists (resolvedExecutable env.scriptDir config) = true ∧
      (env.exec 0).returncode ≠ 0 ∧
      core env config io_config =
        { trace := [invocationArgs (resolvedExecutable env.scriptDir config) config],
          result := .error (.executionError (env.exec 0).stderr) }) ∨
    (env.pathExists (resolvedExecutable env.scriptDir config) = true ∧
      (env.exec 0).returncode = 0 ∧
      ∃ c e, runMeasured env.exec config.variant config.num_runs.toNat = (c, .error e) ∧
        core env config io_config =
          { trace := List.replicate (1 + c)
              (invocationArgs (resolvedExecutable env.scriptDir config) config),
            result := .error (.parseError e) }) ∨
    (env.pathExists (resolvedExecutable env.scriptDir config) = true ∧
      (env.exec 0).returncode = 0 ∧
      ∃ c samples, runMeasured env.exec config.variant config.num_runs.toNat = (c, .ok samples) ∧
        core env config io_config =
          { trace := List.replicate (1 + c)
              (invocationArgs (resolvedExecutable env.scriptDir config) config),
            result := .ok
              { samples := samples,
                stats := env.printPerformance config.num_cols
                  (samples.map Prod.fst) (samples.map Prod.snd),
                csvWrites := csvRow config io_config
                  (env.printPerformance config.num_cols
                    (samples.map Prod.fst) (samples.map Prod.snd)) } }) := by
  by_cases hp : env.pathExists (resolvedExecutable env.scriptDir config) = true
  · by_cases hw : (env.exec 0).returncode = 0
    · rcases hr : runMeasured env.exec config.variant config.num_runs.toNat with ⟨c, r⟩
      cases r with
      | error e =>
        refine Or.inr (Or.inr (Or.inl ⟨hp, hw, c, e, rfl, ?_⟩))
        simp [core, hp, hw, hr]
      | ok samples =>
        refine Or.inr (Or.inr (Or.inr ⟨hp, hw, c, samples, rfl, ?_⟩))
        simp [core, hp, hw, hr]
    · refine Or.inr (Or.inl ⟨hp, hw, ?_⟩)
      simp [core, hp, hw]
  · refine Or.inl ⟨by simpa using hp, ?_⟩
    simp [core, hp]

/-- C10: the physics kernel `f_fokoop` is a stateless, deterministic
function of its scalar temperature argument: for every `t` it returns
exactly `min(RKOOP1 - RKOOP2 * t, f_foeeliq(t) / f_foeeice(t))`,
depending only on `t` and the named external coefficients, and its result
never exceeds `RKOOP1 - RKOOP2 * t`. -/
theorem fokoop_formula_and_bound (RKOOP1 RKOOP2 : ℚ) (f_foeeliq f_foeeice : ℚ → ℚ) (t : ℚ) :
    f_fokoop RKOOP1 RKOOP2 f_foeeliq f_foeeice t
        = min (RKOOP1 - RKOOP2 * t) (f_foeeliq t / f_foeeice t) ∧
      f_fokoop RKOOP1 RKOOP2 f_foeeliq f_foeeice t ≤ RKOOP1 - RKOOP2 * t :=
  ⟨rfl, min_le_left _ _⟩

/-- C3: for every variant of the cuda family the parser reads stdout,
takes line index 2 (0-based) of the newline-split output, splits it on
whitespace discarding empty tokens, and returns the 4th-from-last token
parsed as runtime and the 3rd-from-last as throughput; the fixture
`"\n\n x 5.0 100.0 y z\n"` parses to `(5.0, 100.0)`. -/
theorem cuda_family_rule_and_fixture :
    (∀ v so se, v ∈ cudaVariants → variantParse v so se = applyRule cudaFamilyRule so se) ∧
      variantParse "cuda" "\n\n x 5.0 100.0 y z\n" "" = .ok (5, 100) := by
  constructor
  · intro v so se hv
    rw [variantParse_eq_applyRule]
    simp [layoutFor, hv]
  · decide

/-- Witness for C3 at concrete inputs: the cuda-family membership
hypothesis is discharged for `"cuda-hoist"`. -/
theorem cuda_family_rule_and_fixture_witness :
    variantParse "cuda-hoist" "\n\nr 7.0 9.0 u w\n" ""
        = applyRule cudaFamilyRule "\n\nr 7.0 9.0 u w\n" "" ∧
      variantParse "cuda" "\n\n x 5.0 100.0 y z\n" "" = .ok (5, 100) :=
  ⟨cuda_family_rule_and_fixture.1 "cuda-hoist" "\n\nr 7.0 9.0 u w\n" "" (by decide),
   cuda_family_rule_and_fixture.2⟩

/-- C4: for every variant of the scc family the parser reads stderr line
index 3 and returns the 5th-from-last whitespace token as runtime and the
4th-from-last as throughput; for every variant in neither family it reads
the second-to-last stderr line and returns the 5th-from-last token as
runtime and the 4th-from-last as throughput. -/
theorem scc_and_default_rules (v so se : String) :
    (v ∈ sccVariants → variantParse v so se = applyRule sccFamilyRule so se) ∧
      (v ∉ cudaVariants → v ∉ sccVariants → variantParse v so se = applyRule defaultRule so se) := by
  constructor
  · intro hv
    have hvc : v ∉ cudaVariants := by
      simp only [sccVariants, List.mem_cons, List.not_mem_nil, or_false] at hv
      rcases hv with h | h | h | h | h | h | h | h <;> subst h <;> decide
    rw [variantParse_eq_applyRule]
    simp [layoutFor, hvc, hv]
  · intro h1 h2
    rw [variantParse_eq_applyRule]
    simp [layoutFor, h1, h2]

/-- Witness for C4 at concrete inputs: the scc rule for `"gpu-scc"` and
the default rule for `"fortran"`. -/
theorem scc_and_default_rules_witness :
    variantParse "gpu-scc" "" "a\nb\nc\nq 1.5 2.5 3.5 4.5 5.5\n"
        = applyRule sccFamilyRule "" "a\nb\nc\nq 1.5 2.5 3.5 4.5 5.5\n" ∧
      variantParse "fortran" "" "a 1.0 2.0 3.0 4.0 5.0\nend"
        = applyRule defaultRule "" "a 1.0 2.0 3.0 4.0 5.0\nend" :=
  ⟨(scc_and_default_rules "gpu-scc" "" "a\nb\nc\nq 1.5 2.5 3.5 4.5 5.5\n").1 (by decide),
   (scc_and_default_rules "fortran" "" "a 1.0 2.0 3.0 4.0 5.0\nend").2 (by decide) (by decide)⟩

/-- C5: the parser returns a sample exactly when the captured output
matches the variant class's shape - the designated line exists, both
designated tokens exist, and both parse as numbers, the returned pair
being precisely those two parsed values; on any shape mismatch the
outcome is a parse failure (the embedding's `ParseError`), never a
silently substituted value. -/
theorem parse_fails_loudly (v so se : String) :
    (∀ rt mf, variantParse v so se = .ok (rt, mf) ↔
        ∃ x a b, selectLine (layoutFor v) so se = some x ∧
          pyNegGet (tokensOf x) (layoutFor v).runtimeOff = some a ∧ parseFloat a = some rt ∧
          pyNegGet (tokensOf x) (layoutFor v).mflopsOff = some b ∧ parseFloat b = some mf) ∧
      ((∃ p, variantParse v so se = .ok p) ∨ (∃ f, variantParse v so se = .error f)) := by
  constructor
  · intro rt mf
    rw [variantParse_eq_applyRule]
    unfold applyRule
    rcases hx : selectLine (layoutFor v) so se with _ | x
    · simp [hx]
    · rcases ha : pyNegGet (tokensOf x) (layoutFor v).runtimeOff with _ | a
      · simp [ha]
      · rcases hfa : parseFloat a with _ | qa
        · simp only []
          rcases hb : pyNegGet (tokensOf x) (layoutFor v).mflopsOff with _ | b
          · simp [ha, hfa, hb]
          · rcases hfb : parseFloat b with _ | qb <;> simp [ha, hfa, hb, hfb]
        · rcases hb : pyNegGet (tokensOf x) (layoutFor v).mflopsOff with _ | b
          · simp [ha, hfa, hb]
          · rcases hfb : parseFloat b with _ | qb
            · simp [ha, hfa, hb, hfb]
            · simp only [ha, hfa, hb, hfb]
              constructor
              · intro h
                simp only [Except.ok.injEq, Prod.mk.injEq] at h
                exact ⟨x, a, b, rfl, ha, by rw [hfa, h.1], hb, by rw [hfb, h.2]⟩
              · rintro ⟨x2, a2, b2, hx2, ha2, hfa2, hb2, hfb2⟩
                have hxx : x2 = x := (Option.some.inj hx2).symm
                subst hxx
                have haa : a2 = a := by rw [ha] at ha2; exact (Option.some.inj ha2).symm
                subst haa
                have hbb : b2 = b := by rw [hb] at hb2; exact (Option.some.inj hb2).symm
                subst hbb
                rw [hfa] at hfa2
                rw [hfb] at hfb2
                rw [Option.some.inj hfa2, Option.some.inj hfb2]
  · rcases h : variantParse v so se with f | p
    · exact Or.inr ⟨f, rfl⟩
    · exact Or.inl ⟨p, rfl⟩

/-- Witness for C5 at a concrete malformed output: a non-numeric token at
the runtime offset for the default family yields no sample. -/
theorem parse_fails_loudly_witness :
    (variantParse "fortran" "" "a b c d e f\ng" = .ok (0, 0) ↔
        ∃ x a b, selectLine (layoutFor "fortran") "" "a b c d e f\ng" = some x ∧
          pyNegGet (tokensOf x) (layoutFor "fortran").runtimeOff = some a ∧
            parseFloat a = some 0 ∧
          pyNegGet (tokensOf x) (layoutFor "fortran").mflopsOff = some b ∧
            parseFloat b = some 0) ∧
      ((∃ p, variantParse "fortran" "" "a b c d e f\ng" = .ok p) ∨
        (∃ f, variantParse "fortran" "" "a b c d e f\ng" = .error f)) :=
  ⟨(parse_fails_loudly "fortran" "" "a b c d e f\ng").1 0 0,
   (parse_fails_loudly "fortran" "" "a b c d e f\ng").2⟩

/-- Every subprocess invocation `core` issues uses the same argument
vector `invocationArgs`. -/
theorem core_trace_mem (env : CoreEnv) (config : FortranConfig) (io_config : IOConfig) :
    ∀ a ∈ (core env config io_config).trace,
      a = invocationArgs (resolvedExecutable env.scriptDir config) config := by
  intro a ha
  rcases core_cases env config io_config with
    ⟨_, h⟩ | ⟨_, _, h⟩ | ⟨_, _, c, e, _, h⟩ | ⟨_, _, c, s, _, h⟩ <;> rw [h] at ha
  · exact absurd ha (List.not_mem_nil a)
  · simpa using ha
  · exact List.eq_of_mem_replicate ha
  · exact List.eq_of_mem_replicate ha

/-- A base configuration and an environment with well-formed default-family
banners; shared by the concrete witnesses below. -/
def fortranConfig1 : FortranConfig :=
  { build_dir := "b", precision := "double", variant := "fortran",
    nproma := 32, num_cols := 1, num_runs := 1, num_threads := 1 }

/-- An environment whose warm-up succeeds silently and whose measured runs
print a well-formed default-family banner on stderr. -/
def okEnv : CoreEnv :=
  { scriptDir := "d", pathExists := fun _ => true,
    exec := fun i =>
      if i = 0 then { returncode := 0, stdout := "", stderr := "" }
      else { returncode := 0, stdout := "", stderr := "a 1.0 2.0 3.0 4.0 5.0\nend" },
    printPerformance := fun _ _ _ => (0, 0, 0, 0) }

/-- C6: when the resolved executable path does not exist, `core` fails
immediately with the configuration error carrying the exact message of
the source, and the invocation trace is empty - no warm-up and no
measured subprocess is ever spawned. -/
theorem missing_executable_spawns_nothing (env : CoreEnv) (config : FortranConfig)
    (io_config : IOConfig)
    (h : env.pathExists (resolvedExecutable env.scriptDir config) = false) :
    core env config io_config =
      { trace := [],
        result := .error (.configurationError
          ("The executable `" ++ resolvedExecutable env.scriptDir config ++
            "` does not exist.")) } := by
  rcases core_cases env config io_config with
    ⟨_, hc⟩ | ⟨hp, _, _⟩ | ⟨hp, _, _⟩ | ⟨hp, _, _⟩
  · exact hc
  all_goals rw [hp] at h; exact Bool.noConfusion h

/-- Witness for C6: a concrete environment whose existence oracle answers
false yields the empty trace and the configuration error. -/
theorem missing_executable_spawns_nothing_witness :
    core { scriptDir := "d", pathExists := fun _ => false,
           exec := fun _ => { returncode := 0, stdout := "", stderr := "" },
           printPerformance := fun _ _ _ => (0, 0, 0, 0) }
        fortranConfig1 { output_csv_file := none, host_name := none } =
      { trace := [],
        result := .error (.configurationError
          ("The executable `" ++
            resolvedExecutable "d" fortranConfig1 ++ "` does not exist.")) } :=
  missing_executable_spawns_nothing _ fortranConfig1
    { output_csv_file := none, host_name := none } rfl

/-- C2: for every configuration reached by any chain of builder
transforms, provided `num_cols` and `nproma` are positive, every
subprocess invocation `core` issues passes exactly the three positional
arguments `num_threads`, `num_cols` and `min(num_cols, nproma)` after the
executable, and this effective block size never exceeds the problem
size - the clamp is applied at use, so the order of the chain is
irrelevant. -/
theorem builder_chain_clamped_args (env : CoreEnv) (io_config : IOConfig)
    (c0 : FortranConfig) (l : List ConfigTransform)
    (hpos1 : 0 < (applyChain c0 l).num_cols) (hpos2 : 0 < (applyChain c0 l).nproma) :
    ∀ a ∈ (core env (applyChain c0 l) io_config).trace,
      a = [resolvedExecutable env.scriptDir (applyChain c0 l),
           toString (applyChain c0 l).num_threads,
           toString (applyChain c0 l).num_cols,
           toString (min (applyChain c0 l).num_cols (applyChain c0 l).nproma)] ∧
        min (applyChain c0 l).num_cols (applyChain c0 l).nproma ≤ (applyChain c0 l).num_cols := by
  intro a ha
  exact ⟨core_trace_mem env (applyChain c0 l) io_config a ha, min_le_left _ _⟩

/-- Witness for C2: a concrete two-step chain (`with_num_cols` after
`with_nproma`) with positive fields; the warm-up invocation of the trace
carries the clamped block size `min(1, 32) = 1`. -/
theorem builder_chain_clamped_args_witness :
    ["d/b/bin/dwarf-cloudsc-fortran", "1", "1", "1"]
        = [resolvedExecutable "d" (applyChain fortranConfig1
             [ConfigTransform.setNproma 32, ConfigTransform.setNumCols 1]),
           toString (applyChain fortranConfig1
             [ConfigTransform.setNproma 32, ConfigTransform.setNumCols 1]).num_threads,
           toString (applyChain fortranConfig1
             [ConfigTransform.setNproma 32, ConfigTransform.setNumCols 1]).num_cols,
           toString (min (applyChain fortranConfig1
             [ConfigTransform.setNproma 32, ConfigTransform.setNumCols 1]).num_cols
             (applyChain fortranConfig1
               [ConfigTransform.setNproma 32, ConfigTransform.setNumCols 1]).nproma)] ∧
      min (applyChain fortranConfig1
          [ConfigTransform.setNproma 32, ConfigTransform.setNumCols 1]).num_cols
        (applyChain fortranConfig1
          [ConfigTransform.setNproma 32, ConfigTransform.setNumCols 1]).nproma
        ≤ (applyChain fortranConfig1
            [ConfigTransform.setNproma 32, ConfigTransform.setNumCols 1]).num_cols :=
  builder_chain_clamped_args okEnv { output_csv_file := none, host_name := none }
    fortranConfig1 [ConfigTransform.setNproma 32, ConfigTransform.setNumCols 1]
    (by decide) (by decide)
    ["d/b/bin/dwarf-cloudsc-fortran", "1", "1", "1"] (by decide)

/-- C7: `core` is strictly linear.  (1) When the executable exists and the
warm-up exits non-zero, the invocation aborts after exactly that one
subprocess invocation, before any measured run.  (2) A successful
invocation issued exactly `num_runs + 1` subprocess invocations (one
warm-up plus the measured runs, nothing retried), collected exactly
`num_runs` samples, and the k-th sample is precisely the parsed output of
measured invocation `k+1` - the warm-up contributes no sample.  (3) The
warm-up's captured output is never parsed: replacing it by anything (with
a zero exit code) leaves the whole outcome unchanged. -/
theorem core_linear_sequence (env : CoreEnv) (config : FortranConfig) (io_config : IOConfig) :
    (env.pathExists (resolvedExecutable env.scriptDir config) = true →
      (env.exec 0).returncode ≠ 0 →
      core env config io_config =
        { trace := [invocationArgs (resolvedExecutable env.scriptDir config) config],
          result := .error (.executionError (env.exec 0).stderr) }) ∧
    (∀ res, (core env config io_config).result = .ok res →
      (core env config io_config).trace.length = config.num_runs.toNat + 1 ∧
      res.samples.length = config.num_runs.toNat ∧
      (∀ k, k < config.num_runs.toNat → ∃ s, res.samples.get? k = some s ∧
        variantParse config.variant (env.exec (k + 1)).stdout (env.exec (k + 1)).stderr = .ok s)) ∧
    (∀ so se, (env.exec 0).returncode = 0 →
      core { env with exec := fun i =>
              if i = 0 then { returncode := 0, stdout := so, stderr := se } else env.exec i }
          config io_config
        = core env config io_config) := by
  refine ⟨?_, ?_, ?_⟩
  · intro hp hw
    simp [core, hp, hw]
  · intro res hok
    rcases core_cases env config io_config with
      ⟨_, hc⟩ | ⟨_, _, hc⟩ | ⟨_, _, c, e, hr, hc⟩ | ⟨_, _, c, samples, hr, hc⟩ <;>
        rw [hc] at hok <;> simp only [] at hok
    · exact absurd hok (by simp)
    · exact absurd hok (by simp)
    · exact absurd hok (by simp)
    · obtain ⟨hc0, hlen, hget⟩ := runMeasured_ok_spec env.exec config.variant _ _ _ hr
      have hres := (Except.ok.inj hok).symm
      refine ⟨?_, ?_, ?_⟩
      · rw [hc]; simp [hc0]; omega
      · rw [hres]; exact hlen
      · intro k hk
        rw [hres]
        exact hget k hk
  · intro so se h0
    have hm : runMeasured (fun i =>
          if i = 0 then ({ returncode := 0, stdout := so, stderr := se } : ProcOutput)
          else env.exec i) config.variant config.num_runs.toNat
        = runMeasured env.exec config.variant config.num_runs.toNat := by
      apply runMeasured_congr
      intro i hi
      have hne : i ≠ 0 := by omega
      simp [hne]
    by_cases hp : env.pathExists (resolvedExecutable env.scriptDir config) = true
    · simp [core, hp, h0, hm]
    · have hp2 : env.pathExists (resolvedExecutable env.scriptDir config) = false := by
        simpa using hp
      simp [core, hp2]

/-- An environment whose every invocation fails with exit code 2 and the
diagnostic `boom` on stderr. -/
def envWarmFail : CoreEnv :=
  { scriptDir := "d", pathExists := fun _ => true,
    exec := fun _ => { returncode := 2, stdout := "", stderr := "boom" },
    printPerformance := fun _ _ _ => (0, 0, 0, 0) }

/-- Witness for C7: a failing warm-up aborts after one invocation; a
successful single-run invocation issues two; replacing the warm-up output
changes nothing. -/
theorem core_linear_sequence_witness :
    core envWarmFail fortranConfig1 { output_csv_file := none, host_name := none } =
      { trace := [invocationArgs (resolvedExecutable "d" fortranConfig1) fortranConfig1],
        result := .error (.executionError "boom") } ∧
    (core okEnv fortranConfig1 { output_csv_file := none, host_name := none }).trace.length
      = fortranConfig1.num_runs.toNat + 1 ∧
    core { okEnv with exec := fun i =>
            if i = 0 then { returncode := 0, stdout := "junk", stderr := "junk" }
            else okEnv.exec i }
        fortranConfig1 { output_csv_file := none, host_name := none }
      = core okEnv fortranConfig1 { output_csv_file := none, host_name := none } :=
  ⟨(core_linear_sequence envWarmFail fortranConfig1
      { output_csv_file := none, host_name := none }).1 rfl (by decide),
   ((core_linear_sequence okEnv fortranConfig1
      { output_csv_file := none, host_name := none }).2.1
      { samples := [(1, 2)], stats := (0, 0, 0, 0), csvWrites := [] } (by decide)).1,
   (core_linear_sequence okEnv fortranConfig1
      { output_csv_file := none, host_name := none }).2.2 "junk" "junk" rfl⟩

/-- C8: when `output_csv_file` is absent, a successful invocation returns
the four statistics obtained from the aggregator and writes no CSV row;
moreover omitting the destination never affects the subprocess trace and
never turns a successful invocation into a failing one - the same
statistics are produced, only the persistence step is skipped. -/
theorem absent_csv_skips_persistence (env : CoreEnv) (config : FortranConfig)
    (hn : Option String) (p : String) :
    (∀ res, (core env config { output_csv_file := none, host_name := hn }).result = .ok res →
      res.csvWrites = [] ∧
      res.stats = env.printPerformance config.num_cols
        (res.samples.map Prod.fst) (res.samples.map Prod.snd)) ∧
    (core env config { output_csv_file := none, host_name := hn }).trace
      = (core env config { output_csv_file := some p, host_name := hn }).trace ∧
    (∀ res, (core env config { output_csv_file := some p, host_name := hn }).result = .ok res →
      (core env config { output_csv_file := none, host_name := hn }).result
        = .ok { res with csvWrites := [] }) := by
  by_cases hp : env.pathExists (resolvedExecutable env.scriptDir config) = true
  · by_cases hw : (env.exec 0).returncode = 0
    · rcases hr : runMeasured env.exec config.variant config.num_runs.toNat with ⟨c, r⟩
      cases r with
      | error e =>
        have hA : core env config { output_csv_file := none, host_name := hn } =
            { trace := List.replicate (1 + c)
                (invocationArgs (resolvedExecutable env.scriptDir config) config),
              result := .error (.parseError e) } := by
          simp [core, hp, hw, hr]
        have hB : core env config { output_csv_file := some p, host_name := hn } =
            { trace := List.replicate (1 + c)
                (invocationArgs (resolvedExecutable env.scriptDir config) config),
              result := .error (.parseError e) } := by
          simp [core, hp, hw, hr]
        rw [hA, hB]
        refine ⟨?_, rfl, ?_⟩ <;> intro res h <;> exact absurd h (by simp)
      | ok samples =>
        have hA : core env config { output_csv_file := none, host_name := hn } =
            { trace := List.replicate (1 + c)
                (invocationArgs (resolvedExecutable env.scriptDir config) config),
              result := .ok
                { samples := samples,
                  stats := env.printPerformance config.num_cols
                    (samples.map Prod.fst) (samples.map Prod.snd),
                  csvWrites := csvRow config { output_csv_file := none, host_name := hn }
                    (env.printPerformance config.num_cols
                      (samples.map Prod.fst) (samples.map Prod.snd)) } } := by
          simp [core, hp, hw, hr]
        have hB : core env config { output_csv_file := some p, host_name := hn } =
            { trace := List.replicate (1 + c)
                (invocationArgs (resolvedExecutable env.scriptDir config) config),
              result := .ok
                { samples := samples,
                  stats := env.printPerformance config.num_cols
                    (samples.map Prod.fst) (samples.map Prod.snd),
                  csvWrites := csvRow config { output_csv_file := some p, host_name := hn }
                    (env.printPerformance config.num_cols
                      (samples.map Prod.fst) (samples.map Prod.snd)) } } := by
          simp [core, hp, hw, hr]
        rw [hA, hB]
        refine ⟨?_, rfl, ?_⟩
        · intro res h
          simp only [Except.ok.injEq] at h
          rw [← h]
          exact ⟨by simp [csvRow], rfl⟩
        · intro res h
          simp only [Except.ok.injEq] at h
          rw [← h]
          simp [csvRow]
    · have hA : core env config { output_csv_file := none, host_name := hn } =
          { trace := [invocationArgs (resolvedExecutable env.scriptDir config) config],
            result := .error (.executionError (env.exec 0).stderr) } := by
        simp [core, hp, hw]
      have hB : core env config { output_csv_file := some p, host_name := hn } =
          { trace := [invocationArgs (resolvedExecutable env.scriptDir config) config],
            result := .error (.executionError (env.exec 0).stderr) } := by
        simp [core, hp, hw]
      rw [hA, hB]
      refine ⟨?_, rfl, ?_⟩ <;> intro res h <;> exact absurd h (by simp)
  · have hp2 : env.pathExists (resolvedExecutable env.scriptDir config) = false := by
      simpa using hp
    have hA : core env config { output_csv_file := none, host_name := hn } =
        { trace := [],
          result := .error (.configurationError
            ("The executable `" ++ resolvedExecutable env.scriptDir config ++
              "` does not exist.")) } := by
      simp [core, hp2]
    have hB : core env config { output_csv_file := some p, host_name := hn } =
        { trace := [],
          result := .error (.configurationError
            ("The executable `" ++ resolvedExecutable env.scriptDir config ++
              "` does not exist.")) } := by
      simp [core, hp2]
    rw [hA, hB]
    refine ⟨?_, rfl, ?_⟩ <;> intro res h <;> exact absurd h (by simp)

/-- Witness for C8 at a concrete successful single-run invocation. -/
theorem absent_csv_skips_persistence_witness :
    ({ samples := [(1, 2)], stats := (0, 0, 0, 0), csvWrites := [] } : CoreStats).csvWrites = [] ∧
    ({ samples := [(1, 2)], stats := (0, 0, 0, 0), csvWrites := [] } : CoreStats).stats
      = okEnv.printPerformance fortranConfig1.num_cols
          (([(1, 2)] : List (ℚ × ℚ)).map Prod.fst) (([(1, 2)] : List (ℚ × ℚ)).map Prod.snd) :=
  (absent_csv_skips_persistence okEnv fortranConfig1 none "out.csv").1
    { samples := [(1, 2)], stats := (0, 0, 0, 0), csvWrites := [] } (by decide)

/-- C9 (implicit): the block-size field of the persisted CSV row is the
original configured `nproma`, not the clamped `min(num_cols, nproma)`
passed to the binary on every invocation; so whenever `nproma > num_cols`
the persisted row reports a block size strictly larger than the one used
in all runs. -/
theorem csv_reports_unclamped_nproma (env : CoreEnv) (config : FortranConfig)
    (io_config : IOConfig) (res : CoreStats) (w : String × CsvRecord)
    (hok : (core env config io_config).result = .ok res) (hwm : w ∈ res.csvWrites) :
    w.2.nproma = config.nproma ∧
    (∀ a ∈ (core env config io_config).trace,
      a.get? 3 = some (toString (min config.num_cols config.nproma))) ∧
    (config.num_cols < config.nproma → min config.num_cols config.nproma < w.2.nproma) := by
  have hnp : w.2.nproma = config.nproma := by
    rcases core_cases env config io_config with
      ⟨_, hc⟩ | ⟨_, _, hc⟩ | ⟨_, _, c, e, _, hc⟩ | ⟨_, _, c, samples, _, hc⟩ <;>
        rw [hc] at hok <;> simp only [] at hok
    · exact absurd hok (by simp)
    · exact absurd hok (by simp)
    · exact absurd hok (by simp)
    · have hres := (Except.ok.inj hok).symm
      rw [hres] at hwm
      simp only [csvRow] at hwm
      rcases hio : io_config.output_csv_file with _ | path
      · rw [hio] at hwm; simp at hwm
      · rw [hio] at hwm
        simp only [List.mem_singleton] at hwm
        rw [hwm]
  refine ⟨hnp, ?_, ?_⟩
  · intro a ha
    rw [core_trace_mem env config io_config a ha]
    rfl
  · intro h
    rw [hnp, min_eq_left h.le]
    exact h

/-- Witness for C9: a concrete single-run invocation with
`num_cols = 1 < nproma = 32` and a CSV destination; the persisted record
carries `nproma = 32` while every invocation passed block size `1`. -/
theorem csv_reports_unclamped_nproma_witness :
    ("out.csv",
      ({ host_name := none, precision := "double", variant := "fortran",
         num_cols := 1, num_threads := 1, nproma := 32, num_runs := 1,
         runtime_mean := 0, runtime_stddev := 0, mflops_mean := 0,
         mflops_stddev := 0 } : CsvRecord)).2.nproma = fortranConfig1.nproma ∧
    (∀ a ∈ (core okEnv fortranConfig1
        { output_csv_file := some "out.csv", host_name := none }).trace,
      a.get? 3 = some (toString (min fortranConfig1.num_cols fortranConfig1.nproma))) ∧
    (fortranConfig1.num_cols < fortranConfig1.nproma →
      min fortranConfig1.num_cols fortranConfig1.nproma <
        ("out.csv",
          ({ host_name := none, precision := "double", variant := "fortran",
             num_cols := 1, num_threads := 1, nproma := 32, num_runs := 1,
             runtime_mean := 0, runtime_stddev := 0, mflops_mean := 0,
             mflops_stddev := 0 } : CsvRecord)).2.nproma) :=
  csv_reports_unclamped_nproma okEnv fortranConfig1
    { output_csv_file := some "out.csv", host_name := none }
    { samples := [(1, 2)], stats := (0, 0, 0, 0),
      csvWrites := [("out.csv",
        { host_name := none, precision := "double", variant := "fortran",
          num_cols := 1, num_threads := 1, nproma := 32, num_runs := 1,
          runtime_mean := 0, runtime_stddev := 0, mflops_mean := 0,
          mflops_stddev := 0 })] }
    ("out.csv",
      { host_name := none, precision := "double", variant := "fortran",
        num_cols := 1, num_threads := 1, nproma := 32, num_runs := 1,
        runtime_mean := 0, runtime_stddev := 0, mflops_mean := 0,
        mflops_stddev := 0 })
    (by decide) (by decide)

/-- An environment like `okEnv` whose measured runs additionally exit
with the non-zero code 1 while still printing a well-formed banner. -/
def envMeasuredFail : CoreEnv :=
  { scriptDir := "d", pathExists := fun _ => true,
    exec := fun i =>
      if i = 0 then { returncode := 0, stdout := "", stderr := "" }
      else { returncode := 1, stdout := "", stderr := "a 1.0 2.0 3.0 4.0 5.0\nend" },
    printPerformance := fun _ _ _ => (0, 0, 0, 0) }

/-- Counterexample to C1: a measured run exits with the non-zero code 1,
yet `core` neither fails nor discards its output - it completes
successfully, collects the run's parsed sample, aggregates, and would
persist it.  Only the warm-up's exit code is ever inspected. -/
theorem measured_exit_code_not_checked :
    (envMeasuredFail.exec 1).returncode = 1 ∧
    core envMeasuredFail fortranConfig1 { output_csv_file := none, host_name := none } =
      { trace := List.replicate 2 ["d/b/bin/dwarf-cloudsc-fortran", "1", "1", "1"],
        result := .ok { samples := [(1, 2)], stats := (0, 0, 0, 0), csvWrites := [] } } := by
  constructor
  · rfl
  · decide

/-- C1 as amended: only the warm-up's exit code is checked - a non-zero
warm-up exit aborts the whole invocation immediately, no measured run is
issued, and the error carries the warm-up's captured error stream
verbatim; the exit codes of the measured runs are never inspected, so the
outcome is invariant under arbitrary changes to them. -/
theorem warmup_exit_code_aborts (env : CoreEnv) (config : FortranConfig)
    (io_config : IOConfig) (rc : Nat → Int) :
    (env.pathExists (resolvedExecutable env.scriptDir config) = true →
      (env.exec 0).returncode ≠ 0 →
      core env config io_config =
        { trace := [invocationArgs (resolvedExecutable env.scriptDir config) config],
          result := .error (.executionError (env.exec 0).stderr) }) ∧
    core { env with exec := fun i =>
            if i = 0 then env.exec 0
            else { env.exec i with returncode := rc i } }
        config io_config
      = core env config io_config := by
  constructor
  · intro hp hw
    simp [core, hp, hw]
  · have hm : runMeasured (fun i =>
          if i = 0 then env.exec 0
          else { env.exec i with returncode := rc i }) config.variant config.num_runs.toNat
        = runMeasured env.exec config.variant config.num_runs.toNat := by
      apply runMeasured_congr
      intro i hi
      have hne : i ≠ 0 := by omega
      simp [hne]
    by_cases hp : env.pathExists (resolvedExecutable env.scriptDir config) = true
    · simp [core, hp, hm]
    · have hp2 : env.pathExists (resolvedExecutable env.scriptDir config) = false := by
        simpa using hp
      simp [core, hp2]

/-- Witness for the amended C1: concrete warm-up failure, and concrete
invariance of a successful run under flipping the measured exit codes. -/
theorem warmup_exit_code_aborts_witness :
    core envWarmFail fortranConfig1 { output_csv_file := none, host_name := none } =
      { trace := [invocationArgs (resolvedExecutable "d" fortranConfig1) fortranConfig1],
        result := .error (.executionError "boom") } ∧
    core { okEnv with exec := fun i =>
            if i = 0 then okEnv.exec 0
            else { okEnv.exec i with returncode := (fun _ => (7 : Int)) i } }
        fortranConfig1 { output_csv_file := none, host_name := none }
      = core okEnv fortranConfig1 { output_csv_file := none, host_name := none } :=
  ⟨(warmup_exit_code_aborts envWarmFail fortranConfig1
      { output_csv_file := none, host_name := none } (fun _ => 7)).1 rfl (by decide),
   (warmup_exit_code_aborts okEnv fortranConfig1
      { output_csv_file := none, host_name := none } (fun _ => 7)).2⟩
